import Mathlib

set_option maxHeartbeats 1000000
set_option maxRecDepth 8000

/-!
Verification of the Healthcare-chatbot message-processing pipeline.

The development shallowly embeds the pipeline's pure core:
the language utility (`translateText`), the generative backend adapter
(`parseLLMResponse`, `getFallbackResponse`, `generateResponse` and the second
copy of the adapter shipped in the repository, suffixed `V2`), the intent and
entity extractor (`detectIntent`, `extractEntities`), and the knowledge-base
response synthesizer (`getMedicalResponse`).  External effects are made
explicit: the translation provider and the generative backend become
parameters carrying the outcome of the external call, the JavaScript
`JSON.parse` becomes an `Option Json` outcome, and the knowledge-base state
is passed in and returned so that mutation is observable.
-/

/-- The six supported language codes of the source (`SupportedLanguage`). -/
inductive SupportedLanguage where
  | en
  | hi
  | te
  | ta
  | kn
  | ml
  deriving DecidableEq, Repr

/-- Substring occurrence on character lists: JavaScript `haystack.includes(needle)`. -/
def listContainsSub (needle : List Char) : List Char → Bool
  | [] => needle.isEmpty
  | c :: rest => List.isPrefixOf needle (c :: rest) || listContainsSub needle rest

/-- JavaScript `haystack.includes(needle)` on strings. -/
def strIncludes (haystack needle : String) : Bool :=
  listContainsSub needle.toList haystack.toList

/-- JavaScript `text.toLowerCase()` (ASCII case mapping). -/
def jsToLower (s : String) : String :=
  String.mk (s.toList.map Char.toLower)

/-- JavaScript `text.trim()`: strip leading and trailing whitespace. -/
def jsTrim (s : String) : String :=
  String.mk (((s.toList.dropWhile Char.isWhitespace).reverse.dropWhile
    Char.isWhitespace).reverse)

/-- `translateText` from `src/lib/translation.ts`.  The external translation
provider is abstracted by `provider`: `some t` models a successful provider
reply `t`, `none` models a provider failure (caught, falling back to the
original text).  The second component records whether the provider was
invoked at all. -/
def translateText (provider : Option String) (text : String)
    (targetLanguage sourceLanguage : SupportedLanguage) : String × Bool :=
  if text = "" ∨ jsTrim text = "" ∨ sourceLanguage = targetLanguage then
    (text, false)
  else
    match provider with
    | some translated => (translated, true)
    | none => (text, true)

/-- C9: for every text and language, `translateText` with equal source and
target languages returns the text unchanged, and for every language pair it
returns an empty or whitespace-only text unchanged; in both cases the
external translation provider is not invoked. -/
theorem translateText_short_circuit :
    ∀ (provider : Option String) (text : String)
      (target source lang : SupportedLanguage),
      translateText provider text lang lang = (text, false) ∧
      (jsTrim text = "" → translateText provider text target source = (text, false)) := by
  intro provider text target source lang
  constructor
  · simp [translateText]
  · intro h
    simp [translateText, h]

/-- Witness for C9 at concrete inputs. -/
theorem translateText_short_circuit_witness :
    translateText (some "X") "hello" SupportedLanguage.hi SupportedLanguage.hi
      = ("hello", false) ∧
    translateText (some "X") "  " SupportedLanguage.hi SupportedLanguage.en
      = ("  ", false) :=
  ⟨(translateText_short_circuit (some "X") "hello" SupportedLanguage.en
      SupportedLanguage.en SupportedLanguage.hi).1,
   (translateText_short_circuit (some "X") "  " SupportedLanguage.hi
      SupportedLanguage.en SupportedLanguage.en).2 (by decide)⟩

/-- Runtime JSON values, the possible results of the JavaScript `JSON.parse`. -/
inductive Json where
  | null
  | bool (b : Bool)
  | num (q : ℚ)
  | str (s : String)
  | arr (elems : List Json)
  | obj (fields : List (String × Json))

/-- JavaScript truthiness of a JSON value. -/
def Json.truthy : Json → Bool
  | .null => false
  | .bool b => b
  | .num q => decide (q ≠ 0)
  | .str s => decide (s ≠ "")
  | .arr _ => true
  | .obj _ => true

/-- Whether a JSON value is `null` (member access on it would throw). -/
def Json.isNull : Json → Bool
  | .null => true
  | _ => false

/-- JavaScript member access `value[key]` on a parsed JSON value: on an
object, the last binding of the key wins (as in `JSON.parse`); on any other
non-null value the result is `undefined`, modelled as `none`. -/
def jsField : Json → String → Option Json
  | .obj kvs, key => kvs.reverse.lookup key
  | _, _ => none

/-- JavaScript `v || d`: the default `d` is used when `v` is absent or falsy. -/
def jsOr (v : Option Json) (d : Json) : Json :=
  match v with
  | some j => if j.truthy then j else d
  | none => d

/-- The `LLMResponse` record of `src/lib/llm-service.ts`.  The fields are
runtime JSON values because the source assigns whatever the parsed backend
reply carried, without validation; `followUp` is `none` when the parsed
reply had no such key (the property is `undefined`). -/
structure LLMResponse where
  response : Json
  suggestions : Json
  emergency : Json
  followUp : Option Json
  confidence : Json

/-- The raw-text degrade built in the `catch` branch of `parseLLMResponse`. -/
def rawTextResponse (content : String) : LLMResponse :=
  { response := Json.str content,
    suggestions := Json.arr [],
    emergency := Json.bool false,
    followUp := none,
    confidence := Json.num (7/10) }

/-- `parseLLMResponse` from `src/lib/llm-service.ts`.  The `JSON.parse`
attempt on the cleaned content is abstracted by `parsed : Option Json`
(`none` models a parse exception).  A parse result of `null` makes the
member accesses throw, which the surrounding `try` converts to the same
raw-text degrade. -/
def parseLLMResponse (parsed : Option Json) (content : String) : LLMResponse :=
  match parsed with
  | none => rawTextResponse content
  | some p =>
    if p.isNull then rawTextResponse content
    else
      { response := jsOr (jsField p "response") (Json.str content),
        suggestions := jsOr (jsField p "suggestions") (Json.arr []),
        emergency := jsOr (jsField p "emergency") (Json.bool false),
        followUp := jsField p "followUp",
        confidence := jsOr (jsField p "confidence") (Json.num (8/10)) }

/-- `getFallbackResponse` of the six-language copy of `llm-service.ts`. -/
def getFallbackResponse : SupportedLanguage → LLMResponse
  | .en =>
    { response := Json.str "I apologize, but I\x27m having trouble processing your request right now. Please try again or consult with a healthcare professional for immediate assistance.",
      suggestions := Json.arr [Json.str "Try rephrasing your question", Json.str "Consult a healthcare professional", Json.str "Check your internet connection"],
      emergency := Json.bool false,
      followUp := none,
      confidence := Json.num (1/10) }
  | .hi =>
    { response := Json.str "मुझे खेद है, लेकिन मैं अभी आपके अनुरोध को संसाधित करने में परेशानी हो रही हूं। कृपया पुनः प्रयास करें या तत्काल सहायता के लिए स्वास्थ्य देखभाल पेशेवर से परामर्श करें।",
      suggestions := Json.arr [Json.str "अपना प्रश्न फिर से लिखें", Json.str "स्वास्थ्य देखभाल पेशेवर से परामर्श करें", Json.str "अपना इंटरनेट कनेक्शन जांचें"],
      emergency := Json.bool false,
      followUp := none,
      confidence := Json.num (1/10) }
  | .te =>
    { response := Json.str "క్షమించండి, కానీ నేను ప్రస్తుతం మీ అభ్యర్థనను ప్రాసెస్ చేయడంలో సమస్యను ఎదుర్కొంటున్నాను. దయచేసి మళ్లీ ప్రయత్నించండి లేదా తక్షణ సహాయం కోసం ఆరోగ్య సంరక్షణ నిపుణుడిని సంప్రదించండి.",
      suggestions := Json.arr [Json.str "మీ ప్రశ్నను మళ్లీ రాయండి", Json.str "ఆరోగ్య సంరక్షణ నిపుణుడిని సంప్రదించండి", Json.str "మీ ఇంటర్నెట్ కనెక్షన్‌ను తనిఖీ చేయండి"],
      emergency := Json.bool false,
      followUp := none,
      confidence := Json.num (1/10) }
  | .ta =>
    { response := Json.str "மன்னிக்கவும், தற்போது உங்கள் கோரிக்கையை செயலாக்குவதில் சிக்கல் ஏற்படுகிறது. தயவுசெய்து மீண்டும் முயற்சிக்கவும் அல்லது உடனடி உதவிக்காக ஒரு சுகாதார நிபுணரிடம் ஆலோசிக்கவும்.",
      suggestions := Json.arr [Json.str "உங்கள் கேள்வியை மறுபடியும் எழுதுங்கள்", Json.str "மருத்துவரிடம் ஆலோசிக்கவும்", Json.str "இணைய இணைப்பை சரிபார்க்கவும்"],
      emergency := Json.bool false,
      followUp := none,
      confidence := Json.num (1/10) }
  | .kn =>
    { response := Json.str "ಕ್ಷಮಿಸಿ, ನಾನು ಪ್ರಸ್ತುತ ನಿಮ್ಮ ವಿನಂತಿಯನ್ನು ಪ್ರಕ್ರಿಯೆಗೊಳಿಸಲು ತೊಂದರೆಯನ್ನು ಎದುರಿಸುತ್ತಿದ್ದೇನೆ. ದಯವಿಟ್ಟು ಮತ್ತೆ ಪ್ರಯತ್ನಿಸಿ ಅಥವಾ ತುರ್ತು ಸಹಾಯಕ್ಕಾಗಿ ಆರೋಗ್ಯ ತಜ್ಞರನ್ನು ಸಂಪರ್ಕಿಸಿ.",
      suggestions := Json.arr [Json.str "ನಿಮ್ಮ ಪ್ರಶ್ನೆಯನ್ನು ಮರುಬರೆಯಿರಿ", Json.str "ಆರೋಗ್ಯ ತಜ್ಞರನ್ನು ಸಂಪರ್ಕಿಸಿ", Json.str "ನಿಮ್ಮ ಇಂಟರ್ನೆಟ್ ಸಂಪರ್ಕವನ್ನು ಪರಿಶೀಲಿಸಿ"],
      emergency := Json.bool false,
      followUp := none,
      confidence := Json.num (1/10) }
  | .ml =>
    { response := Json.str "ക്ഷമിക്കണം, നിങ്ങളുടെ അഭ്യർത്ഥന ഇപ്പോൾ പ്രോസസ്സ് ചെയ്യുന്നതിൽ ബുദ്ധിമുട്ട് നേരിടുന്നു. ദയവായി വീണ്ടും ശ്രമിക്കുക അല്ലെങ്കിൽ അടിയന്തര സഹായത്തിനായി ഒരു ഹെൽത്ത് കെയർ പ്രൊഫഷണലുമായി ബന്ധപ്പെടുക.",
      suggestions := Json.arr [Json.str "നിങ്ങളുടെ ചോദ്യം പുനഃരചിക്കുക", Json.str "ഹെൽത്ത് കെയർ പ്രൊഫഷണലുമായി ബന്ധപ്പെടുക", Json.str "നിങ്ങളുടെ ഇന്റർനെറ്റ് കണക്ഷൻ പരിശോധിക്കുക"],
      emergency := Json.bool false,
      followUp := none,
      confidence := Json.num (1/10) }

/-- `generateResponse` of the six-language copy: the backend call is
abstracted by an `Except`; a throw is caught and converted to the fallback. -/
def generateResponse (backend : Except String LLMResponse)
    (language : SupportedLanguage) : LLMResponse :=
  match backend with
  | .ok r => r
  | .error _ => getFallbackResponse language

/-- `getFallbackResponse` of the second copy of `llm-service.ts` in the
repository: its `responses` object only defines the `en`, `hi` and `te`
variants, and the indexing `responses[language as keyof typeof responses]`
yields `undefined` (modelled `none`) for the other three supported codes. -/
def getFallbackResponseV2 : SupportedLanguage → Option LLMResponse
  | .en => some (getFallbackResponse .en)
  | .hi => some (getFallbackResponse .hi)
  | .te => some (getFallbackResponse .te)
  | _ => none

/-- `generateResponse` of the second copy of `llm-service.ts`. -/
def generateResponseV2 (backend : Except String LLMResponse)
    (language : SupportedLanguage) : Option LLMResponse :=
  match backend with
  | .ok r => some r
  | .error _ => getFallbackResponseV2 language

/-- Field set of the `MedicalResponse` interface (name, optional flag), in
declaration order. -/
def MedicalResponseFields : List (String × Bool) :=
  [("response", false), ("suggestions", false), ("emergency", false),
   ("followUp", true)]

/-- Field set of the `LLMResponse` interface (name, optional flag), in
declaration order. -/
def LLMResponseFields : List (String × Bool) :=
  [("response", false), ("suggestions", false), ("emergency", false),
   ("followUp", true), ("confidence", false)]

theorem jsOr_ne_null (v : Option Json) (d : Json) (hd : d ≠ Json.null) :
    jsOr v d ≠ Json.null := by
  cases v with
  | none => simpa [jsOr] using hd
  | some j =>
    cases hj : j.truthy with
    | false => simpa [jsOr, hj] using hd
    | true =>
      simp only [jsOr, hj, if_true]
      intro h
      subst h
      simp [Json.truthy] at hj

theorem lookup_eq_none_of_key_not_mem (l : List (String × Json)) (key : String)
    (h : key ∉ l.map Prod.fst) : l.lookup key = none := by
  induction l with
  | nil => rfl
  | cons kv rest ih =>
    simp only [List.map_cons, List.mem_cons, not_or] at h
    cases kv with
    | mk k v =>
      have hne : (key == k) = false := by
        simp only [beq_eq_false_iff_ne, ne_eq]
        exact h.1
      simp only [List.lookup]
      rw [hne]
      exact ih h.2

/-- C1 (amended): the adapter's paths keep `suggestions` non-null and use
default confidences 0.7 (parse failure), 0.8 (field absent or falsy) and 0.1
(fallback), all inside `[0,1]`; but a truthy `confidence` value carried by
the parsed backend reply is passed through unvalidated, and the
synthesizer's `MedicalResponse` record carries no confidence field at all. -/
theorem response_paths_invariant :
    ∀ (parsed : Option Json) (content : String) (language : SupportedLanguage),
      (parseLLMResponse parsed content).suggestions ≠ Json.null ∧
      (getFallbackResponse language).suggestions ≠ Json.null ∧
      (getFallbackResponse language).confidence = Json.num (1/10) ∧
      ((parseLLMResponse parsed content).confidence = Json.num (7/10) ∨
       (parseLLMResponse parsed content).confidence = Json.num (8/10) ∨
       (∃ p v, parsed = some p ∧ jsField p "confidence" = some v ∧
         v.truthy = true ∧ (parseLLMResponse parsed content).confidence = v)) ∧
      "confidence" ∉ MedicalResponseFields.map Prod.fst := by
  intro parsed content language
  refine ⟨?_, ?_, ?_, ?_, by decide⟩
  · cases parsed with
    | none => simp [parseLLMResponse, rawTextResponse]
    | some p =>
      cases hn : p.isNull with
      | true => simp [parseLLMResponse, hn, rawTextResponse]
      | false =>
        simp only [parseLLMResponse, hn, Bool.false_eq_true, if_false]
        exact jsOr_ne_null _ _ (by simp)
  · cases language <;> simp [getFallbackResponse]
  · cases language <;> rfl
  · cases parsed with
    | none => exact Or.inl rfl
    | some p =>
      cases hn : p.isNull with
      | true =>
        refine Or.inl ?_
        simp [parseLLMResponse, hn, rawTextResponse]
      | false =>
        cases hf : jsField p "confidence" with
        | none =>
          refine Or.inr (Or.inl ?_)
          simp [parseLLMResponse, hn, hf, jsOr]
        | some v =>
          cases hv : v.truthy with
          | false =>
            refine Or.inr (Or.inl ?_)
            simp [parseLLMResponse, hn, hf, jsOr, hv]
          | true =>
            refine Or.inr (Or.inr ⟨p, v, rfl, hf, hv, ?_⟩)
            simp [parseLLMResponse, hn, hf, jsOr, hv]

/-- C1 counterexample: a backend reply parsing to a JSON object with
`confidence` 5 is passed through, giving a confidence outside `[0,1]`. -/
theorem parseLLMResponse_confidence_unbounded :
    (parseLLMResponse
        (some (Json.obj [("response", Json.str "ok"), ("confidence", Json.num 5)]))
        "raw").confidence = Json.num 5 ∧ ¬ ((5 : ℚ) ≤ 1) :=
  ⟨rfl, by norm_num⟩

/-- C7: on a parse failure the adapter returns the full raw text with empty
suggestions, `emergency = false` and confidence exactly `0.7`; on a parsed
object that carries no `confidence` key the confidence is exactly `0.8`;
and the two default confidences are distinct. -/
theorem parseLLMResponse_default_confidences :
    ∀ (content : String) (kvs : List (String × Json)),
      parseLLMResponse none content = rawTextResponse content ∧
      (rawTextResponse content).response = Json.str content ∧
      (rawTextResponse content).suggestions = Json.arr [] ∧
      (rawTextResponse content).emergency = Json.bool false ∧
      (rawTextResponse content).confidence = Json.num (7/10) ∧
      ("confidence" ∉ kvs.map Prod.fst →
        (parseLLMResponse (some (Json.obj kvs)) content).confidence
          = Json.num (8/10)) ∧
      Json.num (7/10) ≠ Json.num (8/10) := by
  intro content kvs
  refine ⟨rfl, rfl, rfl, rfl, rfl, ?_, ?_⟩
  · intro h
    have h' : "confidence" ∉ kvs.reverse.map Prod.fst := by
      simpa using h
    simp [parseLLMResponse, Json.isNull, jsField, jsOr,
      lookup_eq_none_of_key_not_mem _ _ h']
  · intro h
    injection h with h'
    norm_num at h'

/-- Witness for C7 at a concrete parsed object without a confidence key. -/
theorem parseLLMResponse_default_confidences_witness :
    (parseLLMResponse (some (Json.obj [("response", Json.str "hi")])) "hello").confidence
      = Json.num (8/10) :=
  (parseLLMResponse_default_confidences "hello"
    [("response", Json.str "hi")]).2.2.2.2.2.1 (by decide)

/-- C3 (amended): in the six-language copy of the adapter a backend throw is
converted to the fixed localized apology payload for each of the six codes,
with confidence `0.1`, `emergency = false` and a three-element suggestion
list; in the second (three-language) copy this only holds for `en`, `hi`
and `te`. -/
theorem generateResponse_fallback :
    ∀ (errMsg : String) (language : SupportedLanguage),
      generateResponse (Except.error errMsg) language = getFallbackResponse language ∧
      (getFallbackResponse language).confidence = Json.num (1/10) ∧
      (getFallbackResponse language).emergency = Json.bool false ∧
      (∃ s1 s2 s3 : String,
        (getFallbackResponse language).suggestions
          = Json.arr [Json.str s1, Json.str s2, Json.str s3]) ∧
      ((language = SupportedLanguage.en ∨ language = SupportedLanguage.hi ∨
          language = SupportedLanguage.te) →
        ∃ r, generateResponseV2 (Except.error errMsg) language = some r ∧
          r.confidence = Json.num (1/10)) := by
  intro errMsg language
  cases language with
  | en => exact ⟨rfl, rfl, rfl, ⟨_, _, _, rfl⟩, fun _ => ⟨_, rfl, rfl⟩⟩
  | hi => exact ⟨rfl, rfl, rfl, ⟨_, _, _, rfl⟩, fun _ => ⟨_, rfl, rfl⟩⟩
  | te => exact ⟨rfl, rfl, rfl, ⟨_, _, _, rfl⟩, fun _ => ⟨_, rfl, rfl⟩⟩
  | ta =>
    refine ⟨rfl, rfl, rfl, ⟨_, _, _, rfl⟩, fun h => ?_⟩
    rcases h with h | h | h <;> exact SupportedLanguage.noConfusion h
  | kn =>
    refine ⟨rfl, rfl, rfl, ⟨_, _, _, rfl⟩, fun h => ?_⟩
    rcases h with h | h | h <;> exact SupportedLanguage.noConfusion h
  | ml =>
    refine ⟨rfl, rfl, rfl, ⟨_, _, _, rfl⟩, fun h => ?_⟩
    rcases h with h | h | h <;> exact SupportedLanguage.noConfusion h

/-- Witness for C3 at a concrete backend error and language. -/
theorem generateResponse_fallback_witness :
    ∃ r, generateResponseV2 (Except.error "backend down") SupportedLanguage.en
        = some r ∧ r.confidence = Json.num (1/10) :=
  (generateResponse_fallback "backend down" SupportedLanguage.en).2.2.2.2 (Or.inl rfl)

/-- C3 counterexample: in the second copy of the adapter, a backend throw
with language `ta` yields no apology payload at all (`undefined`). -/
theorem generateResponseV2_ta_no_payload :
    generateResponseV2 (Except.error "backend down") SupportedLanguage.ta = none ∧
    ¬ ∃ r, generateResponseV2 (Except.error "backend down") SupportedLanguage.ta
        = some r := by
  refine ⟨rfl, ?_⟩
  rintro ⟨r, h⟩
  simp [generateResponseV2, getFallbackResponseV2] at h

/-- C8 counterexample: the synthesizer's record type and the adapter's
record type do not carry the same field set. -/
theorem medicalResponseFields_ne_llmResponseFields :
    MedicalResponseFields ≠ LLMResponseFields := by decide

/-- C8 (amended): the two record types agree exactly on the four fields
`response`, `suggestions`, `emergency` and optional `followUp` (same order,
same optionality), but only the adapter's `LLMResponse` carries the
required `confidence` field; the synthesizer's `MedicalResponse` lacks it. -/
theorem fields_common_agree :
    MedicalResponseFields
      = LLMResponseFields.filter (fun f => f.1 != "confidence") ∧
    ("confidence", false) ∈ LLMResponseFields ∧
    "confidence" ∉ MedicalResponseFields.map Prod.fst := by decide

/-- The symptom vocabulary of `MEDICAL_KEYWORDS` in `translation.ts`. -/
def symptomKeywords : List String :=
  ["fever", "headache", "cough", "pain", "ache", "nausea", "vomiting",
   "diarrhea", "fatigue", "weakness", "dizziness", "rash", "swelling",
   "bleeding", "breathing", "chest pain", "stomach pain", "back pain",
   "joint pain", "muscle pain"]

/-- The disease vocabulary of `MEDICAL_KEYWORDS`. -/
def diseaseKeywords : List String :=
  ["diabetes", "hypertension", "cancer", "flu", "cold", "pneumonia",
   "asthma", "arthritis", "heart disease", "stroke", "depression",
   "anxiety", "migraine", "disease", "infection", "inflammation"]

/-- The medication vocabulary of `MEDICAL_KEYWORDS`. -/
def medicationKeywords : List String :=
  ["medicine", "drug", "pill", "tablet", "capsule", "injection", "vaccine",
   "antibiotic", "painkiller", "antidepressant", "insulin", "blood pressure",
   "cholesterol", "vitamin", "supplement"]

/-- The body-part vocabulary of `MEDICAL_KEYWORDS`. -/
def bodyPartKeywords : List String :=
  ["head", "chest", "stomach", "back", "leg", "arm", "hand", "foot", "eye",
   "ear", "nose", "throat", "heart", "lung", "liver", "kidney", "brain",
   "spine", "joint", "muscle", "bone"]

/-- `MEDICAL_KEYWORDS`, in the iteration order of `Object.entries`. -/
def MEDICAL_KEYWORDS : List (String × List String) :=
  [("symptoms", symptomKeywords), ("diseases", diseaseKeywords),
   ("medications", medicationKeywords), ("bodyParts", bodyPartKeywords)]

/-- `INTENT_PATTERNS`, in the iteration order of `Object.entries`. -/
def INTENT_PATTERNS : List (String × List String) :=
  [("symptom_inquiry",
    ["what are the symptoms of", "symptoms of", "signs of", "how to know if",
     "what does it mean when", "is this a symptom"]),
   ("disease_info",
    ["what is", "tell me about", "information about", "explain", "define",
     "what causes", "how to treat", "treatment for"]),
   ("medication_query",
    ["medicine for", "drug for", "treatment", "medication", "prescription",
     "what medicine", "which drug", "how to treat"]),
   ("emergency",
    ["emergency", "urgent", "help", "serious", "critical", "immediate",
     "rush", "ambulance", "hospital", "doctor now"]),
   ("general_health",
    ["health advice", "prevention", "healthy", "wellness", "fitness",
     "diet", "exercise", "lifestyle"])]

/-- The `EntityExtraction` record of `translation.ts`. -/
structure EntityExtraction where
  symptoms : List String
  diseases : List String
  medications : List String
  bodyParts : List String
  entities : List String
  deriving DecidableEq

/-- `extractEntities`: the source loops over `Object.entries(MEDICAL_KEYWORDS)`
and pushes every keyword occurring as a substring of the lower-cased text
into its category list; the flat `entities` field is initialized empty and
never filled by this function. -/
def extractEntities (text : String) : EntityExtraction :=
  { symptoms := symptomKeywords.filter (fun k => strIncludes (jsToLower text) k),
    diseases := diseaseKeywords.filter (fun k => strIncludes (jsToLower text) k),
    medications := medicationKeywords.filter (fun k => strIncludes (jsToLower text) k),
    bodyParts := bodyPartKeywords.filter (fun k => strIncludes (jsToLower text) k),
    entities := [] }

/-- The `IntentResult` record of `translation.ts`. -/
structure IntentResult where
  intent : String
  confidence : ℚ
  entities : List String
  deriving DecidableEq

/-- The pattern-scan loop of `detectIntent`: the best (intent, confidence)
pair, starting from `("general_health", 0.1)` and updating on a strict
improvement `confidence > bestConfidence`. -/
def detectIntentCore (text : String) : String × ℚ :=
  let lower := jsToLower text
  INTENT_PATTERNS.foldl (fun acc p =>
    p.2.foldl (fun acc2 pat =>
      if strIncludes lower pat then
        let confidence := mkRat pat.length text.length
        if confidence > acc2.2 then (p.1, confidence) else acc2
      else acc2) acc)
    ("general_health", mkRat 1 10)

/-- The four category hit lists pushed into `entities` by `detectIntent`,
in push order. -/
def allEntityHits (text : String) : List String :=
  (extractEntities text).symptoms ++ (extractEntities text).diseases ++
    (extractEntities text).medications ++ (extractEntities text).bodyParts

/-- Helper for `jsSetDedup`: keep the first occurrence of each element,
remembering the elements already emitted. -/
def jsSetDedupAux (seen : List String) : List String → List String
  | [] => []
  | x :: xs =>
    if seen.contains x then jsSetDedupAux seen xs
    else x :: jsSetDedupAux (x :: seen) xs

/-- JavaScript `[...new Set(l)]`: deduplication keeping first occurrences. -/
def jsSetDedup (l : List String) : List String := jsSetDedupAux [] l

/-- `detectIntent` from `translation.ts`. -/
def detectIntent (text : String) : IntentResult :=
  { intent := (detectIntentCore text).1,
    confidence :=
      min ((detectIntentCore text).2 + ((allEntityHits text).length : ℚ) * mkRat 1 10) 1,
    entities := jsSetDedup (allEntityHits text) }

/-- One step of a best-score scan with strict improvement. -/
def stepBest {α β : Type} (m : α → Bool) (s : α → ℚ) (t : α → β)
    (acc : β × ℚ) (x : α) : β × ℚ :=
  if m x then (if acc.2 < s x then (t x, s x) else acc) else acc

/-- A best-score scan over a list (the shape of the `detectIntent` loop). -/
def runBest {α β : Type} (m : α → Bool) (s : α → ℚ) (t : α → β)
    (l : List α) (a : β × ℚ) : β × ℚ :=
  l.foldl (stepBest m s t) a

/-- Maximum of the scores of the matching elements, seeded with `q`. -/
def maxFrom {α : Type} (m : α → Bool) (s : α → ℚ) (l : List α) (q : ℚ) : ℚ :=
  l.foldl (fun acc x => if m x then max acc (s x) else acc) q

/-- Declarative description of the scan: if some matching element scores
strictly above the floor `q`, the result is the maximal score together with
the tag of the first element attaining it (ties keep the first-seen
element); otherwise the initial pair is returned unchanged. -/
def bestSpec {α β : Type} (m : α → Bool) (s : α → ℚ) (t : α → β)
    (l : List α) (b : β) (q : ℚ) : β × ℚ :=
  if q < maxFrom m s l q then
    ((l.find? (fun x => m x && decide (s x = maxFrom m s l q))).map
      (fun x => (t x, maxFrom m s l q))).getD (b, q)
  else (b, q)

theorem maxFrom_cons {α : Type} (m : α → Bool) (s : α → ℚ) (x : α)
    (l : List α) (q : ℚ) :
    maxFrom m s (x :: l) q = maxFrom m s l (if m x then max q (s x) else q) := rfl

theorem le_maxFrom {α : Type} (m : α → Bool) (s : α → ℚ) :
    ∀ (l : List α) (q : ℚ), q ≤ maxFrom m s l q := by
  intro l
  induction l with
  | nil => intro q; exact le_refl q
  | cons x xs ih =>
    intro q
    rw [maxFrom_cons]
    refine le_trans ?_ (ih _)
    by_cases hm : m x = true
    · simp [hm, le_max_left]
    · simp [hm]

theorem maxFrom_attained {α : Type} (m : α → Bool) (s : α → ℚ) :
    ∀ (l : List α) (q : ℚ),
      maxFrom m s l q = q ∨ ∃ x ∈ l, m x = true ∧ s x = maxFrom m s l q := by
  intro l
  induction l with
  | nil => intro q; exact Or.inl rfl
  | cons x xs ih =>
    intro q
    rw [maxFrom_cons]
    by_cases hm : m x = true
    · rw [if_pos hm]
      rcases ih (max q (s x)) with h | ⟨y, hy, hmy, hsy⟩
      · rw [h]
        rcases le_total (s x) q with hle | hle
        · exact Or.inl (max_eq_left hle)
        · exact Or.inr ⟨x, List.mem_cons_self x xs, hm, (max_eq_right hle).symm⟩
      · exact Or.inr ⟨y, List.mem_cons_of_mem x hy, hmy, hsy⟩
    · rw [if_neg hm]
      rcases ih q with h | ⟨y, hy, hmy, hsy⟩
      · exact Or.inl h
      · exact Or.inr ⟨y, List.mem_cons_of_mem x hy, hmy, hsy⟩

theorem maxFrom_of_no_match {α : Type} (m : α → Bool) (s : α → ℚ) :
    ∀ (l : List α) (q : ℚ), (∀ x ∈ l, m x = false) → maxFrom m s l q = q := by
  intro l
  induction l with
  | nil => intro q _; rfl
  | cons x xs ih =>
    intro q h
    rw [maxFrom_cons, h x (List.mem_cons_self x xs)]
    exact ih q (fun y hy => h y (List.mem_cons_of_mem x hy))

theorem runBest_eq_bestSpec {α β : Type} (m : α → Bool) (s : α → ℚ) (t : α → β) :
    ∀ (l : List α) (b : β) (q : ℚ), runBest m s t l (b, q) = bestSpec m s t l b q := by
  intro l
  induction l with
  | nil =>
    intro b q
    simp [runBest, bestSpec, maxFrom, List.foldl]
  | cons x xs ih =>
    intro b q
    have hrun : runBest m s t (x :: xs) (b, q) = runBest m s t xs (stepBest m s t (b, q) x) := rfl
    by_cases hm : m x = true
    · by_cases hlt : q < s x
      · have hstep : stepBest m s t (b, q) x = (t x, s x) := by
          simp [stepBest, hm, hlt]
        have hmax : maxFrom m s (x :: xs) q = maxFrom m s xs (s x) := by
          rw [maxFrom_cons, if_pos hm, max_eq_right hlt.le]
        have hsx : s x ≤ maxFrom m s xs (s x) := le_maxFrom m s xs (s x)
        rw [hrun, hstep, ih]
        by_cases h1 : s x < maxFrom m s xs (s x)
        · have hq : q < maxFrom m s xs (s x) := lt_trans hlt h1
          rcases maxFrom_attained m s xs (s x) with h | ⟨y, hy, hmy, hsy⟩
          · rw [h] at h1
            exact absurd h1 (lt_irrefl _)
          · have hfind :
                List.find? (fun z => m z && decide (s z = maxFrom m s xs (s x))) (x :: xs)
                  = List.find? (fun z => m z && decide (s z = maxFrom m s xs (s x))) xs := by
              apply List.find?_cons_of_neg
              simp [hm, h1.ne]
            cases hf : List.find? (fun z => m z && decide (s z = maxFrom m s xs (s x))) xs with
            | none =>
              exfalso
              have hcontra := List.find?_eq_none.mp hf y hy
              simp [hmy, hsy] at hcontra
            | some z =>
              simp only [bestSpec, hmax, hfind, hf]
              rw [if_pos h1, if_pos hq]
              simp
        · have hEq : maxFrom m s xs (s x) = s x := le_antisymm (not_lt.mp h1) hsx
          simp only [bestSpec, hmax, hEq]
          rw [if_neg (lt_irrefl (s x)), if_pos hlt,
            List.find?_cons_of_pos _ (by simp [hm])]
          simp
      · have hstep : stepBest m s t (b, q) x = (b, q) := by
          simp [stepBest, hm, hlt]
        have hle : s x ≤ q := not_lt.mp hlt
        have hmax : maxFrom m s (x :: xs) q = maxFrom m s xs q := by
          rw [maxFrom_cons, if_pos hm, max_eq_left hle]
        rw [hrun, hstep, ih]
        by_cases hg : q < maxFrom m s xs q
        · have hne : s x ≠ maxFrom m s xs q := ne_of_lt (lt_of_le_of_lt hle hg)
          have hfind :
              List.find? (fun z => m z && decide (s z = maxFrom m s xs q)) (x :: xs)
                = List.find? (fun z => m z && decide (s z = maxFrom m s xs q)) xs := by
            apply List.find?_cons_of_neg
            simp [hm, hne]
          simp only [bestSpec, hmax, hfind]
        · simp only [bestSpec, hmax]
          rw [if_neg hg, if_neg hg]
    · have hm' : m x = false := by
        cases hmx : m x
        · rfl
        · exact absurd hmx hm
      have hstep : stepBest m s t (b, q) x = (b, q) := by simp [stepBest, hm']
      have hmax : maxFrom m s (x :: xs) q = maxFrom m s xs q := by
        rw [maxFrom_cons]
        simp [hm']
      have hfind : ∀ M : ℚ,
          List.find? (fun z => m z && decide (s z = M)) (x :: xs)
            = List.find? (fun z => m z && decide (s z = M)) xs := by
        intro M
        apply List.find?_cons_of_neg
        simp [hm']
      rw [hrun, hstep, ih]
      simp only [bestSpec, hmax, hfind]

/-- The intent patterns flattened to (label, phrase) pairs in the loop's
iteration order. -/
def flatPatterns : List (String × String) :=
  INTENT_PATTERNS.flatMap (fun p => p.2.map (fun pat => (p.1, pat)))

/-- Whether a (label, phrase) pair matches: the phrase occurs as a substring
of the lower-cased text. -/
def patternMatch (text : String) (x : String × String) : Bool :=
  strIncludes (jsToLower text) x.2

/-- The raw score of a (label, phrase) pair: phrase length over text length. -/
def patternScore (text : String) (x : String × String) : ℚ :=
  mkRat x.2.length text.length

/-- The score is the source's raw division (phrase length over text length). -/
theorem patternScore_eq_div (text : String) (x : String × String) :
    patternScore text x = (x.2.length : ℚ) / (text.length : ℚ) := by
  simp [patternScore, Rat.mkRat_eq_div]

theorem foldl_bind_pairs {β : Type} (f : β → String × String → β)
    (L : List (String × List String)) (a : β) :
    (L.flatMap (fun p => p.2.map (fun pat => (p.1, pat)))).foldl f a
      = L.foldl (fun acc p => p.2.foldl (fun acc2 pat => f acc2 (p.1, pat)) acc) a := by
  induction L generalizing a with
  | nil => rfl
  | cons p L ih =>
    rw [List.flatMap_cons, List.foldl_append, List.foldl_map, ih]
    rfl

theorem detectIntentCore_eq_runBest (text : String) :
    detectIntentCore text
      = runBest (patternMatch text) (patternScore text) Prod.fst flatPatterns
          ("general_health", mkRat 1 10) := by
  rw [runBest, flatPatterns, foldl_bind_pairs]
  rfl

/-- The claim-side reading of the scan: the label owning the maximum raw
score among the matching phrases (ties resolved to the first-seen pair in
iteration order), with the `general_health`/`0.1` floor. -/
def detectIntentSpec (text : String) : String × ℚ :=
  bestSpec (patternMatch text) (patternScore text) Prod.fst flatPatterns
    "general_health" (mkRat 1 10)

/-- C4 (amended): `detectIntent` returns the intent label owning the
maximum raw score among the occurring trigger phrases, with ties resolved
to the first-seen pair in the fixed iteration order, provided that maximum
strictly exceeds the `0.1` floor; occurring phrases scoring at most `0.1`
are ignored by the strict comparison, and when no phrase beats the floor
(in particular when no phrase occurs at all) the result is
`general_health` with base confidence `0.1`. -/
theorem detectIntent_best_pattern :
    ∀ text : String,
      (detectIntent text).intent = (detectIntentSpec text).1 ∧
      detectIntentCore text = detectIntentSpec text ∧
      ((∀ x ∈ flatPatterns, patternMatch text x = false) →
        detectIntentCore text = ("general_health", mkRat 1 10)) := by
  intro text
  have hcore : detectIntentCore text = detectIntentSpec text := by
    rw [detectIntentCore_eq_runBest, detectIntentSpec,
      runBest_eq_bestSpec (patternMatch text) (patternScore text) Prod.fst
        flatPatterns "general_health" (mkRat 1 10)]
  refine ⟨?_, hcore, ?_⟩
  · show (detectIntentCore text).1 = (detectIntentSpec text).1
    rw [hcore]
  · intro h
    rw [hcore, detectIntentSpec, bestSpec,
      maxFrom_of_no_match (patternMatch text) (patternScore text) flatPatterns
        (mkRat 1 10) h]
    rw [if_neg (lt_irrefl _)]

/-- Witness for C4 at a concrete text with no occurring phrase. -/
theorem detectIntent_best_pattern_witness :
    detectIntentCore "xyz" = ("general_health", mkRat 1 10) :=
  (detectIntent_best_pattern "xyz").2.2 (by decide)

/-- A text in which the emergency phrase "help" occurs but scores exactly
`0.1`, the floor. -/
def floorCexText : String := "helpzzzzzzzzzzzzzzzzzzzzzzzzzzzzzzzzzzzz"

/-- C4 counterexample: in `floorCexText` a trigger phrase occurs and every
occurring phrase belongs to the `emergency` label, so the label owning the
maximum raw score is `emergency`; yet `detectIntent` returns
`general_health`, because the occurring phrase's score does not strictly
exceed the `0.1` floor. -/
theorem detectIntent_floor_cex :
    (∃ x ∈ flatPatterns, patternMatch floorCexText x = true) ∧
    (∀ x ∈ flatPatterns, patternMatch floorCexText x = true → x.1 = "emergency") ∧
    (detectIntent floorCexText).intent = "general_health" ∧
    "general_health" ≠ "emergency" := by decide

theorem jsSetDedupAux_eq_self :
    ∀ (l seen : List String), l.Nodup → (∀ a ∈ l, a ∉ seen) →
      jsSetDedupAux seen l = l := by
  intro l
  induction l with
  | nil => intro seen _ _; rfl
  | cons x xs ih =>
    intro seen h hseen
    rcases List.nodup_cons.mp h with ⟨hx, hxs⟩
    have hcx : seen.contains x = false := by
      cases hc : seen.contains x
      · rfl
      · exact absurd (List.mem_of_elem_eq_true hc)
          (hseen x (List.mem_cons_self x xs))
    simp only [jsSetDedupAux, hcx, Bool.false_eq_true, if_false]
    rw [ih (x :: seen) hxs]
    intro a ha
    simp only [List.mem_cons, not_or]
    exact ⟨fun e => hx (e ▸ ha), hseen a (List.mem_cons_of_mem x ha)⟩

theorem jsSetDedup_eq_self (l : List String) (h : l.Nodup) : jsSetDedup l = l :=
  jsSetDedupAux_eq_self l [] h (fun a _ => List.not_mem_nil a)

theorem list_disjoint_of_subsets {l₁ l₂ k₁ k₂ : List String}
    (h1 : l₁ ⊆ k₁) (h2 : l₂ ⊆ k₂) (h : ∀ a ∈ k₁, a ∉ k₂) : l₁.Disjoint l₂ := by
  intro a ha hb
  exact h a (h1 ha) (h2 hb)

theorem allEntityHits_nodup (text : String) : (allEntityHits text).Nodup := by
  have hs : ((extractEntities text).symptoms).Nodup :=
    List.Nodup.filter _ (by decide)
  have hd : ((extractEntities text).diseases).Nodup :=
    List.Nodup.filter _ (by decide)
  have hm : ((extractEntities text).medications).Nodup :=
    List.Nodup.filter _ (by decide)
  have hb : ((extractEntities text).bodyParts).Nodup :=
    List.Nodup.filter _ (by decide)
  have sub_s : (extractEntities text).symptoms ⊆ symptomKeywords :=
    fun a ha => (List.mem_filter.mp ha).1
  have sub_d : (extractEntities text).diseases ⊆ diseaseKeywords :=
    fun a ha => (List.mem_filter.mp ha).1
  have sub_m : (extractEntities text).medications ⊆ medicationKeywords :=
    fun a ha => (List.mem_filter.mp ha).1
  have sub_b : (extractEntities text).bodyParts ⊆ bodyPartKeywords :=
    fun a ha => (List.mem_filter.mp ha).1
  have d_sd := list_disjoint_of_subsets sub_s sub_d (by decide)
  have d_sm := list_disjoint_of_subsets sub_s sub_m (by decide)
  have d_sb := list_disjoint_of_subsets sub_s sub_b (by decide)
  have d_dm := list_disjoint_of_subsets sub_d sub_m (by decide)
  have d_db := list_disjoint_of_subsets sub_d sub_b (by decide)
  have d_mb := list_disjoint_of_subsets sub_m sub_b (by decide)
  show ((((extractEntities text).symptoms ++ (extractEntities text).diseases) ++
      (extractEntities text).medications) ++ (extractEntities text).bodyParts).Nodup
  refine List.nodup_append.mpr ⟨?_, hb, ?_⟩
  · refine List.nodup_append.mpr ⟨?_, hm, ?_⟩
    · exact List.nodup_append.mpr ⟨hs, hd, d_sd⟩
    · exact List.disjoint_append_left.mpr ⟨d_sm, d_dm⟩
  · exact List.disjoint_append_left.mpr
      ⟨List.disjoint_append_left.mpr ⟨d_sb, d_db⟩, d_mb⟩

/-- C5: the confidence returned by `detectIntent` is
`min(bestConfidence + 0.1 × distinctEntityCount, 1.0)` where the distinct
entity count is the length of the deduplicated union of the four category
hit lists, and the returned entities sequence is exactly that
duplicate-free union.  The four category vocabularies are pairwise disjoint
and duplicate-free, so the pushed hits are already distinct and
deduplication is the identity on them. -/
theorem detectIntent_confidence_formula :
    ∀ text : String,
      (detectIntent text).confidence
          = min ((detectIntentCore text).2
              + ((jsSetDedup (allEntityHits text)).length : ℚ) * mkRat 1 10) 1 ∧
      (detectIntent text).entities = jsSetDedup (allEntityHits text) ∧
      (allEntityHits text).Nodup ∧
      jsSetDedup (allEntityHits text) = allEntityHits text := by
  intro text
  have hnd := allEntityHits_nodup text
  have hded := jsSetDedup_eq_self (allEntityHits text) hnd
  refine ⟨?_, rfl, hnd, hded⟩
  show min ((detectIntentCore text).2 + ((allEntityHits text).length : ℚ) * mkRat 1 10) 1
      = min ((detectIntentCore text).2
          + ((jsSetDedup (allEntityHits text)).length : ℚ) * mkRat 1 10) 1
  rw [hded]

theorem chest_pain_not_extracted (text : String) :
    "chest_pain" ∉ allEntityHits text := by
  intro h
  simp only [allEntityHits, List.mem_append] at h
  rcases h with ((h | h) | h) | h <;>
    exact absurd (List.mem_filter.mp h).1 (by decide)

/-- The `MedicalCondition` record of the knowledge-base module. -/
structure MedicalCondition where
  name : String
  symptoms : List String
  causes : List String
  treatments : List String
  precautions : List String
  emergency : Bool
  deriving DecidableEq

/-- The knowledge-base state: the key/condition bindings of the module-level
`MEDICAL_KNOWLEDGE` object, passed explicitly so mutation is observable. -/
abbrev KnowledgeBase := List (String × MedicalCondition)

/-- The initial `MEDICAL_KNOWLEDGE` object. -/
def MEDICAL_KNOWLEDGE : KnowledgeBase :=
  [("fever",
    { name := "Fever",
      symptoms := ["elevated body temperature", "chills", "sweating", "headache", "muscle aches"],
      causes := ["viral infection", "bacterial infection", "inflammatory conditions"],
      treatments := ["rest", "hydration", "fever reducers", "cool compresses"],
      precautions := ["monitor temperature", "stay hydrated", "seek medical attention if temperature exceeds 103°F"],
      emergency := false }),
   ("headache",
    { name := "Headache",
      symptoms := ["head pain", "pressure in head", "throbbing sensation", "sensitivity to light"],
      causes := ["stress", "dehydration", "lack of sleep", "eye strain", "sinus issues"],
      treatments := ["rest in dark room", "hydration", "pain relievers", "cold compress"],
      precautions := ["avoid triggers", "maintain regular sleep", "stay hydrated"],
      emergency := false }),
   ("cough",
    { name := "Cough",
      symptoms := ["throat irritation", "chest congestion", "sore throat", "difficulty breathing"],
      causes := ["viral infection", "diseases", "irritants", "asthma"],
      treatments := ["cough suppressants", "hydration", "steam inhalation", "honey"],
      precautions := ["avoid irritants", "stay hydrated", "rest voice"],
      emergency := false }),
   ("chest_pain",
    { name := "Chest Pain",
      symptoms := ["chest discomfort", "pressure", "burning sensation", "shortness of breath"],
      causes := ["heart conditions", "muscle strain", "acid reflux", "anxiety"],
      treatments := ["immediate medical evaluation", "rest", "avoid exertion"],
      precautions := ["seek immediate medical attention", "avoid self-diagnosis"],
      emergency := true }),
   ("diabetes",
    { name := "Diabetes",
      symptoms := ["frequent urination", "excessive thirst", "fatigue", "blurred vision", "slow healing"],
      causes := ["insulin resistance", "pancreatic dysfunction", "genetic factors"],
      treatments := ["blood sugar monitoring", "medication", "diet control", "exercise"],
      precautions := ["regular monitoring", "healthy diet", "regular exercise", "foot care"],
      emergency := false }),
   ("hypertension",
    { name := "High Blood Pressure",
      symptoms := ["often asymptomatic", "headaches", "shortness of breath", "nosebleeds"],
      causes := ["genetic factors", "poor diet", "lack of exercise", "stress"],
      treatments := ["medication", "diet modification", "exercise", "stress management"],
      precautions := ["regular monitoring", "low sodium diet", "regular exercise", "limit alcohol"],
      emergency := false })]

/-- The fixed emergency-trigger entity set of `getMedicalResponse`. -/
def EMERGENCY_TRIGGERS : List String := ["chest pain", "heart attack", "stroke"]

/-- The `MedicalResponse` record of the knowledge-base module: no
`confidence` field; `followUp` is `none` exactly when the field is omitted
(the emergency short-circuit). -/
structure MedicalResponse where
  response : String
  suggestions : List String
  emergency : Bool
  followUp : Option String
  deriving DecidableEq

/-- The fixed record returned by the emergency short-circuit: an English
message for `en` and the Hindi message for every other language, the fixed
suggestion triple, `emergency = true`, and no `followUp` field. -/
def emergencyResponse (language : SupportedLanguage) : MedicalResponse :=
  { response :=
      if language = SupportedLanguage.en then
        "This sounds like a medical emergency. Please call emergency services immediately or go to the nearest hospital."
      else
        "यह एक चिकित्सा आपातकाल की तरह लगता है। कृपया तुरंत आपातकालीन सेवाओं को कॉल करें या निकटतम अस्पताल जाएं।",
    suggestions := ["Call emergency services", "Go to nearest hospital", "Stay calm"],
    emergency := true,
    followUp := none }

/-- `generateConditionResponse`: the localized condition template (English,
Hindi, and Telugu for every remaining language). -/
def generateConditionResponse (condition : MedicalCondition)
    (language : SupportedLanguage) : String :=
  if language = SupportedLanguage.en then
    condition.name ++ " is a medical condition that can cause " ++
      String.intercalate ", " condition.symptoms ++ ". " ++
      "Common causes include " ++ String.intercalate ", " condition.causes ++ ". " ++
      "Treatment options include " ++ String.intercalate ", " condition.treatments ++ ". " ++
      "Important precautions: " ++ String.intercalate ", " condition.precautions ++ ". " ++
      "Please consult with a healthcare professional for proper diagnosis and treatment."
  else if language = SupportedLanguage.hi then
    condition.name ++ " एक चिकित्सा स्थिति है जो " ++
      String.intercalate ", " condition.symptoms ++ " का कारण बन सकती है। " ++
      "सामान्य कारणों में " ++ String.intercalate ", " condition.causes ++ " शामिल हैं। " ++
      "उपचार के विकल्पों में " ++ String.intercalate ", " condition.treatments ++ " शामिल हैं। " ++
      "महत्वपूर्ण सावधानियां: " ++ String.intercalate ", " condition.precautions ++ "। " ++
      "उचित निदान और उपचार के लिए कृपया एक स्वास्थ्य देखभाल पेशेवर से परामर्श करें।"
  else
    condition.name ++ " అనేది " ++ String.intercalate ", " condition.symptoms ++
      " కలిగించే వైద్య పరిస్థితి. " ++
      "సాధారణ కారణాలలో " ++ String.intercalate ", " condition.causes ++ " ఉన్నాయి. " ++
      "చికిత్సా ఎంపికలలో " ++ String.intercalate ", " condition.treatments ++ " ఉన్నాయి. " ++
      "ముఖ్యమైన జాగ్రత్తలు: " ++ String.intercalate ", " condition.precautions ++ ". " ++
      "సరైన నిర్ధారణ మరియు చికిత్స కోసం దయచేసి ఆరోగ్య సంరక్షణ నిపుణుడిని సంప్రదించండి."

/-- `generateGeneralResponse`: the per-intent canned text (English, Hindi,
Telugu for every remaining language); the `entities` argument is accepted
but unused, as in the source. -/
def generateGeneralResponse (intent : String) (entities : List String)
    (language : SupportedLanguage) : String :=
  if language = SupportedLanguage.en then
    if intent = "symptom_inquiry" then
      "I understand you\x27re experiencing some symptoms. Could you please describe them in more detail? This will help me provide better guidance."
    else if intent = "disease_info" then
      "I\x27d be happy to provide information about health conditions. What specific condition would you like to know about?"
    else if intent = "medication_query" then
      "For medication advice, I recommend consulting with a healthcare professional or pharmacist. They can provide personalized recommendations based on your specific needs."
    else if intent = "general_health" then
      "I\x27m here to help with general health information. What would you like to know about maintaining good health?"
    else
      "I\x27m here to help with your health questions. Could you please provide more details about what you\x27re experiencing?"
  else if language = SupportedLanguage.hi then
    if intent = "symptom_inquiry" then
      "मैं समझता हूं कि आप कुछ लक्षणों का अनुभव कर रहे हैं। क्या आप कृपया उन्हें अधिक विस्तार से वर्णन कर सकते हैं?"
    else if intent = "disease_info" then
      "मैं स्वास्थ्य स्थितियों के बारे में जानकारी प्रदान करने में खुश हूं। आप किस विशिष्ट स्थिति के बारे में जानना चाहते हैं?"
    else if intent = "medication_query" then
      "दवा सलाह के लिए, मैं एक स्वास्थ्य देखभाल पेशेवर या फार्मासिस्ट से परामर्श करने की सलाह देता हूं।"
    else if intent = "general_health" then
      "मैं सामान्य स्वास्थ्य जानकारी में मदद के लिए यहां हूं। अच्छे स्वास्थ्य को बनाए रखने के बारे में आप क्या जानना चाहते हैं?"
    else
      "मैं आपके स्वास्थ्य प्रश्नों में मदद के लिए यहां हूं। क्या आप कृपया अपने अनुभव के बारे में अधिक विवरण प्रदान कर सकते हैं?"
  else
    if intent = "symptom_inquiry" then
      "మీరు కొన్ని లక్షణాలను అనుభవిస్తున్నట్లు నేను అర్థం చేసుకున్నాను. దయచేసి వాటిని మరింత వివరంగా వివరించగలరా?"
    else if intent = "disease_info" then
      "ఆరోగ్య పరిస్థితుల గురించి సమాచారం అందించడంలో నేను సంతోషిస్తున్నాను. మీరు ఏ నిర్దిష్ట పరిస్థితి గురించి తెలుసుకోవాలనుకుంటున్నారు?"
    else if intent = "medication_query" then
      "మందుల సలహా కోసం, ఆరోగ్య సంరక్షణ నిపుణుడు లేదా ఫార్మసిస్ట్‌ను సంప్రదించమని నేను సిఫార్సు చేస్తున్నాను."
    else if intent = "general_health" then
      "సాధారణ ఆరోగ్య సమాచారంతో సహాయం చేయడానికి నేను ఇక్కడ ఉన్నాను. మంచి ఆరోగ్యాన్ని నిర్వహించడం గురించి మీరు ఏమి తెలుసుకోవాలనుకుంటున్నారు?"
    else
      "మీ ఆరోగ్య ప్రశ్నలతో సహాయం చేయడానికి నేను ఇక్కడ ఉన్నాను. మీరు అనుభవిస్తున్న దాని గురించి మరింత వివరాలను అందించగలరా?"

/-- `getGeneralSuggestions`: the per-intent generic suggestion lists. -/
def getGeneralSuggestions (intent : String) : List String :=
  if intent = "symptom_inquiry" then
    ["Describe symptoms in detail", "Note when symptoms started", "Track symptom severity", "Consult a healthcare provider"]
  else if intent = "disease_info" then
    ["Research reliable medical sources", "Consult healthcare professionals", "Ask specific questions", "Understand treatment options"]
  else if intent = "medication_query" then
    ["Consult pharmacist", "Check drug interactions", "Follow dosage instructions", "Monitor for side effects"]
  else if intent = "general_health" then
    ["Maintain balanced diet", "Exercise regularly", "Get adequate sleep", "Manage stress", "Regular health checkups"]
  else
    ["Provide more details", "Consult healthcare professional", "Keep health records", "Follow medical advice"]

/-- The caution note appended to the suggestion list when the user has
recorded conditions. -/
def diseaseNote (userDiseases : List String) : String :=
  "Note: You have diseases to: " ++ String.intercalate ", " userDiseases ++
    ". Please inform your healthcare provider."

/-- Rebind a key of the knowledge base to a new condition record. -/
def kbUpdate (kb : KnowledgeBase) (key : String) (c : MedicalCondition) :
    KnowledgeBase :=
  kb.map (fun p => if p.1 = key then (key, c) else p)

/-- `getMedicalResponse` with the knowledge-base state passed explicitly.
The source aliases `suggestions = condition.treatments` and then
`suggestions.push(...)` when the user has recorded diseases, so that push
writes through to the knowledge base's own treatments array; the state
component returns the knowledge base as it stands after the call. -/
def getMedicalResponseS (kb : KnowledgeBase) (intent : String)
    (entities userDiseases : List String) (language : SupportedLanguage) :
    MedicalResponse × KnowledgeBase :=
  if intent = "emergency" ∨ ∃ e ∈ entities, e ∈ EMERGENCY_TRIGGERS then
    (emergencyResponse language, kb)
  else
    match (entities.find? (fun e => (kb.lookup e).isSome)).bind
        (fun key => (kb.lookup key).map (fun c => (key, c))) with
    | some (key, condition) =>
      let suggestions :=
        if userDiseases.isEmpty then condition.treatments
        else condition.treatments ++ [diseaseNote userDiseases]
      ({ response := generateConditionResponse condition language,
         suggestions := suggestions,
         emergency := condition.emergency,
         followUp := some ("Would you like more information about " ++
           condition.name ++ " or its treatment options?") },
       if userDiseases.isEmpty then kb
       else kbUpdate kb key { condition with treatments := suggestions })
    | none =>
      ({ response := generateGeneralResponse intent entities language,
         suggestions := getGeneralSuggestions intent,
         emergency := false,
         followUp := some "" }, kb)

/-- `getMedicalResponse` as called with the module-level knowledge base. -/
def getMedicalResponse (intent : String) (entities userDiseases : List String)
    (language : SupportedLanguage) : MedicalResponse :=
  (getMedicalResponseS MEDICAL_KNOWLEDGE intent entities userDiseases language).1

theorem getMedicalResponseS_emergency (kb : KnowledgeBase) (intent : String)
    (entities userDiseases : List String) (language : SupportedLanguage)
    (h : intent = "emergency" ∨ ∃ e ∈ entities, e ∈ EMERGENCY_TRIGGERS) :
    getMedicalResponseS kb intent entities userDiseases language
      = (emergencyResponse language, kb) := by
  unfold getMedicalResponseS
  rw [if_pos h]

/-- C2: whenever the intent equals the emergency label or the entity list
meets the fixed trigger set, `getMedicalResponse` returns immediately with
the localized emergency-instruction message, `emergency = true`, the fixed
suggestion triple and no `followUp` field, leaving the knowledge base
untouched (no condition templating happens in this branch). -/
theorem getMedicalResponse_emergency_short_circuit :
    ∀ (kb : KnowledgeBase) (intent : String)
      (entities userDiseases : List String) (language : SupportedLanguage),
      (intent = "emergency" ∨ ∃ e ∈ entities, e ∈ EMERGENCY_TRIGGERS) →
      getMedicalResponseS kb intent entities userDiseases language
          = (emergencyResponse language, kb) ∧
      (emergencyResponse language).emergency = true ∧
      (emergencyResponse language).suggestions
          = ["Call emergency services", "Go to nearest hospital", "Stay calm"] ∧
      (emergencyResponse language).followUp = none := by
  intro kb intent entities userDiseases language h
  exact ⟨getMedicalResponseS_emergency kb intent entities userDiseases language h,
    rfl, rfl, rfl⟩

/-- Witness for C2 at a concrete triggering entity list. -/
theorem getMedicalResponse_emergency_short_circuit_witness :
    getMedicalResponseS MEDICAL_KNOWLEDGE "general_health" ["chest pain"] []
        SupportedLanguage.en
      = (emergencyResponse SupportedLanguage.en, MEDICAL_KNOWLEDGE) :=
  (getMedicalResponse_emergency_short_circuit MEDICAL_KNOWLEDGE "general_health"
    ["chest pain"] [] SupportedLanguage.en
    (Or.inr ⟨"chest pain", by decide, by decide⟩)).1

/-- C6: the knowledge base is NOT left intact by `getMedicalResponse`: at
intent `disease_info`, entities `["fever"]`, user diseases `["diabetes"]`
and language `en`, the matched condition's treatments array is extended in
place with the user-disease caution note (array aliasing through
`suggestions = condition.treatments; suggestions.push(...)`), so the
knowledge base after the call differs from `MEDICAL_KNOWLEDGE`: the fever
entry's treatments grew from 4 to 5 entries. -/
theorem medical_knowledge_mutated :
    (getMedicalResponseS MEDICAL_KNOWLEDGE "disease_info" ["fever"] ["diabetes"]
        SupportedLanguage.en).2 ≠ MEDICAL_KNOWLEDGE ∧
    ((getMedicalResponseS MEDICAL_KNOWLEDGE "disease_info" ["fever"] ["diabetes"]
        SupportedLanguage.en).2.lookup "fever").map
          (fun c => c.treatments.length) = some 5 ∧
    (MEDICAL_KNOWLEDGE.lookup "fever").map (fun c => c.treatments.length)
        = some 4 ∧
    ((getMedicalResponseS MEDICAL_KNOWLEDGE "disease_info" ["fever"] []
        SupportedLanguage.en).2 = MEDICAL_KNOWLEDGE) := by decide

/-- C10: the extractor's vocabulary contains only "chest pain" (with a
space), never the knowledge-base key "chest_pain", so on extractor output
the step-2 condition scan can never select the `chest_pain` entry; an
extracted "chest pain" instead always takes the emergency short-circuit. -/
theorem chest_pain_entry_unreachable :
    ∀ (text : String) (kb : KnowledgeBase) (intent : String)
      (userDiseases : List String) (language : SupportedLanguage),
      "chest_pain" ∉ (detectIntent text).entities ∧
      (detectIntent text).entities.find?
          (fun e => (MEDICAL_KNOWLEDGE.lookup e).isSome) ≠ some "chest_pain" ∧
      ("chest pain" ∈ (detectIntent text).entities →
        getMedicalResponseS kb intent ((detectIntent text).entities)
            userDiseases language = (emergencyResponse language, kb)) := by
  intro text kb intent userDiseases language
  have hent : (detectIntent text).entities = allEntityHits text := by
    show jsSetDedup (allEntityHits text) = allEntityHits text
    exact jsSetDedup_eq_self _ (allEntityHits_nodup text)
  refine ⟨?_, ?_, ?_⟩
  · rw [hent]
    exact chest_pain_not_extracted text
  · intro hfind
    have hmem := List.mem_of_find?_eq_some hfind
    rw [hent] at hmem
    exact chest_pain_not_extracted text hmem
  · intro hmem
    exact getMedicalResponseS_emergency kb intent _ userDiseases language
      (Or.inr ⟨"chest pain", hmem, by decide⟩)

/-- Witness for C10 at a concrete message mentioning chest pain. -/
theorem chest_pain_entry_unreachable_witness :
    getMedicalResponseS MEDICAL_KNOWLEDGE "symptom_inquiry"
        ((detectIntent "i have chest pain").entities) [] SupportedLanguage.en
      = (emergencyResponse SupportedLanguage.en, MEDICAL_KNOWLEDGE) :=
  (chest_pain_entry_unreachable "i have chest pain" MEDICAL_KNOWLEDGE
    "symptom_inquiry" [] SupportedLanguage.en).2.2 (by decide)
